import Mathlib

/-!
Shallow embedding of the IP-geolocation web map script
(`Assignment 03 - Web mapping/geolocate-har-file/Web map/map.js`).

The script is browser glue around the MapLibre GL JS library: it loads a
GeoJSON file of IP locations, renders it as a clustered point source with
three layers, and wires DOM controls (style switch, zoom, reset) to map
calls.  We embed the script's state (the global `map` handle, the global
`ipLocationData`, and the `ip-count` status element) as an explicit
`AppState`, and each script function as a state-passing Lean function.
Library behaviour that the script relies on (duplicate source/layer ids
throw; `setStyle` discards previously added sources and layers; `Response.ok`
means a 2xx status) is modelled explicitly where noted.
-/

namespace MapJS

/-- A GeoJSON point feature as the script uses it: `properties.ip`,
`properties.url` and a `[longitude, latitude]` coordinate pair. -/
structure Feature where
  ip : String
  url : String
  lng : ℚ
  lat : ℚ
deriving DecidableEq, Repr

/-- The value stored in the global `ipLocationData` after `JSON.parse`
(or the initial `null`).  Only truthiness and the presence/contents of a
`features` array are observed by the script, so the embedding keeps exactly
those distinctions: `nullish` covers `null` and other falsy parse results,
`withoutFeatures` covers truthy values lacking a `features` array. -/
inductive GeoJSONValue where
  | nullish
  | withoutFeatures
  | withFeatures (features : List Feature)
deriving DecidableEq, Repr

/-- JS truthiness of the stored value, as used by `if (ipLocationData)`. -/
def GeoJSONValue.truthy : GeoJSONValue → Bool
  | .nullish => false
  | .withoutFeatures => true
  | .withFeatures _ => true

/-- Outcome of `JSON.parse(responseText)`: a thrown SyntaxError (with its
message) or a parsed value. -/
inductive ParseOutcome where
  | parseFail (msg : String)
  | parsed (v : GeoJSONValue)
deriving DecidableEq, Repr

/-- Outcome of `await fetch(...)`: a rejected promise (TypeError
"Failed to fetch") or a response carrying a status, a status text and a
body (already classified by how it will parse). -/
inductive FetchOutcome where
  | networkFailure
  | response (status : Nat) (statusText : String) (body : ParseOutcome)
deriving DecidableEq, Repr

/-- `Response.ok`: per the fetch specification, true exactly for 2xx. -/
def respOk (status : Nat) : Bool := 200 ≤ status && status ≤ 299

/-- Camera parameters of the map view: center (`lng`, `lat`), zoom, pitch,
bearing. -/
structure Camera where
  lng : ℚ
  lat : ℚ
  zoom : ℚ
  pitch : ℚ
  bearing : ℚ
deriving DecidableEq, Repr

/-- `defaultMapConfig` from the script. -/
def defaultMapConfig : Camera :=
  { lng := -98.5795, lat := 39.8283, zoom := 3, pitch := 0, bearing := 0 }

/-- One raster source of an inline style document in `mapStyles`. -/
structure RasterSourceDef where
  sourceId : String
  tiles : List String
  tileSize : Nat
  attribution : String
deriving DecidableEq, Repr

/-- One raster layer of an inline style document in `mapStyles`. -/
structure RasterLayerDef where
  id : String
  source : String
  minzoom : Nat
  maxzoom : Nat
deriving DecidableEq, Repr

/-- An inline raster style document from `mapStyles`. -/
structure RasterStyle where
  version : Nat
  src : RasterSourceDef
  layer : RasterLayerDef
deriving DecidableEq, Repr

/-- A value of the `mapStyles` table: either a remote style URL or an
inline raster style document. -/
inductive MapStyle where
  | styleUrl (url : String)
  | raster (s : RasterStyle)
deriving DecidableEq, Repr

/-- `mapStyles.streets`. -/
def streetsStyle : MapStyle := .styleUrl "https://demotiles.maplibre.org/style.json"

/-- `mapStyles.satellite`. -/
def satelliteStyle : MapStyle := .raster
  { version := 8
  , src :=
      { sourceId := "esri"
      , tiles := ["https://server.arcgisonline.com/ArcGIS/rest/services/World_Imagery/MapServer/tile/{z}/{y}/{x}"]
      , tileSize := 256
      , attribution := "© Esri" }
  , layer := { id := "esri", source := "esri", minzoom := 0, maxzoom := 22 } }

/-- `mapStyles.dark`. -/
def darkStyle : MapStyle := .raster
  { version := 8
  , src :=
      { sourceId := "cartodb"
      , tiles := ["https://cartodb-basemaps-a.global.ssl.fastly.net/dark_all/{z}/{x}/{y}.png"]
      , tileSize := 256
      , attribution := "© CartoDB" }
  , layer := { id := "cartodb", source := "cartodb", minzoom := 0, maxzoom := 22 } }

/-- `mapStyles.light`. -/
def lightStyle : MapStyle := .raster
  { version := 8
  , src :=
      { sourceId := "cartodb"
      , tiles := ["https://cartodb-basemaps-a.global.ssl.fastly.net/light_all/{z}/{x}/{y}.png"]
      , tileSize := 256
      , attribution := "© CartoDB" }
  , layer := { id := "cartodb", source := "cartodb", minzoom := 0, maxzoom := 22 } }

/-- The `mapStyles` registry: key lookup over its four keys. -/
def mapStyles (key : String) : Option MapStyle :=
  if key = "streets" then some streetsStyle
  else if key = "satellite" then some satelliteStyle
  else if key = "dark" then some darkStyle
  else if key = "light" then some lightStyle
  else none

/-- The GeoJSON source registered by `addGeoJSONToMap`: the loaded data plus
the fixed clustering parameters (`cluster: true`, `clusterMaxZoom: 14`,
`clusterRadius: 50`). -/
structure GeoJSONSourceDef where
  data : GeoJSONValue
  cluster : Bool
  clusterMaxZoom : Nat
  clusterRadius : Nat
deriving DecidableEq, Repr

/-- State of the constructed map object, as far as the script observes it:
camera, active style, registered sources and layers (by id, in order of
addition) and whether `addMapInteractions` has run for the current layers. -/
structure MapState where
  camera : Camera
  style : MapStyle
  sources : List (String × GeoJSONSourceDef)
  layers : List String
  interactionsBound : Bool
deriving DecidableEq, Repr

/-- The `ip-count` DOM element: its `textContent` and `style.color`. -/
structure StatusEl where
  text : String
  color : String
deriving DecidableEq, Repr

/-- The script's process-wide state: the global `map` handle (unset until
`initializeMap` succeeds), the global `ipLocationData`, and the optional
`ip-count` status element. -/
structure AppState where
  map : Option MapState
  ipLocationData : GeoJSONValue
  statusEl : Option StatusEl
deriving DecidableEq, Repr

/-- MapLibre `step` expression evaluation: the output is `base` below the
first stop input, and otherwise the output of the last stop whose input
(an inclusive lower bound) is at most the lookup value. -/
def stepEval {α : Type} (base : α) : List (Nat × α) → Nat → α
  | [], _ => base
  | (t, v) :: stops, n => if n < t then base else stepEval v stops n

/-- The paint of the `clusters` layer declared in `addGeoJSONToMap`:
`circle-color` and `circle-radius` are `step` expressions on
`['get', 'point_count']`. -/
structure ClustersPaint where
  circleColorBase : String
  circleColorStops : List (Nat × String)
  circleRadiusBase : Nat
  circleRadiusStops : List (Nat × Nat)
deriving DecidableEq, Repr

/-- The literal stops of the `clusters` layer paint from the script:
color `'#51bbd6', 10, '#f1f075', 30, '#f28cb1'` and
radius `20, 10, 30, 30, 40`. -/
def clustersPaint : ClustersPaint :=
  { circleColorBase := "#51bbd6"
  , circleColorStops := [(10, "#f1f075"), (30, "#f28cb1")]
  , circleRadiusBase := 20
  , circleRadiusStops := [(10, 30), (30, 40)] }

/-- The cluster circle color as a function of `point_count`. -/
def clusterCircleColor (pointCount : Nat) : String :=
  stepEval clustersPaint.circleColorBase clustersPaint.circleColorStops pointCount

/-- The cluster circle radius as a function of `point_count`. -/
def clusterCircleRadius (pointCount : Nat) : Nat :=
  stepEval clustersPaint.circleRadiusBase clustersPaint.circleRadiusStops pointCount

/-- `updateIPCount(count)`: if the `ip-count` element exists, a numeric
argument renders the count string in green (`#27ae60`) and a string
argument renders it verbatim in blue (`#3498db`); with no element it does
nothing.  The JS `typeof count === 'number'` dispatch becomes a sum type. -/
def updateIPCount (count : Nat ⊕ String) (st : AppState) : AppState :=
  match st.statusEl with
  | none => st
  | some _ =>
    match count with
    | .inl n =>
      { st with statusEl := some { text := "📊 " ++ toString n ++ " unique IP locations loaded"
                                 , color := "#27ae60" } }
    | .inr s =>
      { st with statusEl := some { text := s, color := "#3498db" } }

/-- `showErrorMessage(message)`: if the `ip-count` element exists, renders
the message with an error prefix in red (`#e74c3c`). -/
def showErrorMessage (message : String) (st : AppState) : AppState :=
  match st.statusEl with
  | none => st
  | some _ =>
    { st with statusEl := some { text := "❌ Error: " ++ message, color := "#e74c3c" } }

/-- Does `p` occur at the head of `l`?  (Char-list model of JS strings.) -/
def leadsWith : List Char → List Char → Bool
  | [], _ => true
  | _ :: _, [] => false
  | a :: as, b :: bs => a == b && leadsWith as bs

/-- Does `needle` occur anywhere in `l`? -/
def hasSubList (needle : List Char) : List Char → Bool
  | [] => needle.isEmpty
  | b :: bs => leadsWith needle (b :: bs) || hasSubList needle bs

/-- JS `hay.includes(needle)`. -/
def strIncludes (hay needle : String) : Bool :=
  hasSubList needle.toList hay.toList

/-- The `catch` block of `loadGeoJSONData`: dispatch on the thrown error's
message — a message containing `404` yields the file-not-found text, a
message containing `Failed to fetch` yields the network text, anything
else is wrapped in the generic load-failure text. -/
def loadErrorUI (message : String) (st : AppState) : AppState :=
  if strIncludes message "404" then
    showErrorMessage "GeoJSON file not found. Please check the file path." st
  else if strIncludes message "Failed to fetch" then
    showErrorMessage "Network error. Please ensure you are running this from a web server." st
  else
    showErrorMessage ("Failed to load IP location data: " ++ message) st

/-- The source definition registered by `map.addSource('ip-locations', ...)`. -/
def ipSourceDef (data : GeoJSONValue) : GeoJSONSourceDef :=
  { data := data, cluster := true, clusterMaxZoom := 14, clusterRadius := 50 }

/-- `addGeoJSONToMap()`: adds the `ip-locations` source and the three layers
(`clusters`, `cluster-count`, `unclustered-point`) inside a `try`;
MapLibre's `addSource`/`addLayer` throw on a duplicate id (and `map.addSource`
throws when the global `map` is unset), in which case the `catch` reports
"Failed to display IP locations on map." and earlier additions persist.
On full success `addMapInteractions()` binds the layer handlers. -/
def addGeoJSONToMap (st : AppState) : AppState :=
  match st.map with
  | none => showErrorMessage "Failed to display IP locations on map." st
  | some m =>
    if (m.sources.map Prod.fst).contains "ip-locations" then
      showErrorMessage "Failed to display IP locations on map." st
    else
      let m := { m with sources := m.sources ++ [("ip-locations", ipSourceDef st.ipLocationData)] }
      if m.layers.contains "clusters" then
        showErrorMessage "Failed to display IP locations on map." { st with map := some m }
      else
        let m := { m with layers := m.layers ++ ["clusters"] }
        if m.layers.contains "cluster-count" then
          showErrorMessage "Failed to display IP locations on map." { st with map := some m }
        else
          let m := { m with layers := m.layers ++ ["cluster-count"] }
          if m.layers.contains "unclustered-point" then
            showErrorMessage "Failed to display IP locations on map." { st with map := some m }
          else
            let m := { m with layers := m.layers ++ ["unclustered-point"], interactionsBound := true }
            { st with map := some m }

/-- `loadGeoJSONData()` applied to the outcome of its one `fetch`: shows the
loading status, then checks `response.ok`, parses, assigns the parsed value
to the global `ipLocationData` (the assignment precedes validation in the
script), validates the `features` array, and on success shows the count and
renders; every thrown error lands in the `catch` modelled by `loadErrorUI`. -/
def loadGeoJSONData (fetchResult : FetchOutcome) (st : AppState) : AppState :=
  let st := updateIPCount (.inr "Loading IP locations...") st
  match fetchResult with
  | .networkFailure => loadErrorUI "Failed to fetch" st
  | .response status statusText body =>
    if respOk status then
      match body with
      | .parseFail msg => loadErrorUI msg st
      | .parsed v =>
        let st := { st with ipLocationData := v }
        match v with
        | .nullish => loadErrorUI "Invalid GeoJSON structure - missing features array" st
        | .withoutFeatures => loadErrorUI "Invalid GeoJSON structure - missing features array" st
        | .withFeatures features =>
          if features.length = 0 then
            loadErrorUI "GeoJSON file contains no features" st
          else
            addGeoJSONToMap (updateIPCount (.inl features.length) st)
    else
      loadErrorUI ("HTTP error! status: " ++ toString status ++ " - " ++ statusText) st

/-- Modelled library behaviour of `map.setStyle(style)`: the new style
document replaces the old one, user-added sources and layers are discarded
(so their handlers are stale), and the camera becomes whatever the new
style imposes (`styleCamera`, left arbitrary in the theorems). -/
def setStyle (style : MapStyle) (styleCamera : Camera) (m : MapState) : MapState :=
  { m with style := style
         , camera := styleCamera
         , sources := []
         , layers := []
         , interactionsBound := false }

/-- `changeMapStyle(styleKey)` together with the `map.once('styledata', ...)`
continuation it registers (single-threaded event loop: the handler runs when
the new style fires `styledata`).  Guarded by `if (map && mapStyles[styleKey])`:
it captures the camera, calls `setStyle`, and the handler restores the
captured camera and re-adds the data when `ipLocationData` is truthy. -/
def changeMapStyle (styleKey : String) (styleCamera : Camera) (st : AppState) : AppState :=
  match st.map, mapStyles styleKey with
  | some m, some style =>
    let captured := m.camera
    let m := setStyle style styleCamera m
    let m := { m with camera := captured }
    let st := { st with map := some m }
    if st.ipLocationData.truthy then addGeoJSONToMap st else st
  | _, _ => st

/-- `resetMapView()`: guarded by `if (map)`, eases the camera back to
`defaultMapConfig` (the 2-second animation duration is not observable in
the embedding). -/
def resetMapView (st : AppState) : AppState :=
  match st.map with
  | none => st
  | some m => { st with map := some { m with camera := defaultMapConfig } }

/-- The zoom-in button handler from `setupEventListeners`: guarded by
`if (map)`, `map.zoomIn()` raises the zoom by one level. -/
def zoomInClick (st : AppState) : AppState :=
  match st.map with
  | none => st
  | some m =>
    { st with map := some { m with camera := { m.camera with zoom := m.camera.zoom + 1 } } }

/-- The zoom-out button handler from `setupEventListeners`: guarded by
`if (map)`, `map.zoomOut()` lowers the zoom by one level. -/
def zoomOutClick (st : AppState) : AppState :=
  match st.map with
  | none => st
  | some m =>
    { st with map := some { m with camera := { m.camera with zoom := m.camera.zoom - 1 } } }

/-- The coordinate-wrapping loop of the `unclustered-point` click handler:
`while (Math.abs(e.lngLat.lng - coordinates[0]) > 180) coordinates[0] +=
e.lngLat.lng > coordinates[0] ? 360 : -360;`.  Terminates because each
iteration moves the longitude 360° toward the click longitude, which
strictly shrinks `⌈|clickLng - lng|⌉` while the guard holds. -/
def wrapLng (clickLng : ℚ) (lng : ℚ) : ℚ :=
  if h : 180 < |clickLng - lng| then
    wrapLng clickLng (lng + if clickLng > lng then 360 else -360)
  else lng
termination_by (⌈|clickLng - lng|⌉).toNat
decreasing_by
  have h181 : (181 : ℤ) ≤ ⌈|clickLng - lng|⌉ := by
    have : (180 : ℤ) < ⌈|clickLng - lng|⌉ := by
      rw [Int.lt_ceil]
      exact_mod_cast h
    omega
  apply (Int.toNat_lt_toNat (by omega)).mpr
  split
  · rename_i hgt
    have hpos : 180 < clickLng - lng := by
      rcases abs_cases (clickLng - lng) with ⟨he, _⟩ | ⟨_, _⟩
      · linarith [he ▸ h]
      · linarith
    have hx : clickLng - (lng + 360) = clickLng - lng - 360 := by ring
    rw [hx]
    by_cases hbig : 0 ≤ clickLng - lng - 360
    · have habs1 : |clickLng - lng - 360| = clickLng - lng - 360 := abs_of_nonneg hbig
      have hceil : (⌈|clickLng - lng - 360|⌉ : ℤ) = ⌈|clickLng - lng|⌉ - 360 := by
        have habs2 : |clickLng - lng| = clickLng - lng := abs_of_nonneg (by linarith)
        rw [habs1, habs2]
        have hz : clickLng - lng - 360 = clickLng - lng + ((-360 : ℤ) : ℚ) := by
          push_cast
          ring
        rw [hz, Int.ceil_add_int]
        omega
      omega
    · push_neg at hbig
      have habs1 : |clickLng - lng - 360| = -(clickLng - lng - 360) := abs_of_nonpos (by linarith)
      have hle : ⌈|clickLng - lng - 360|⌉ ≤ (180 : ℤ) := by
        rw [Int.ceil_le, habs1]
        push_cast
        linarith
      omega
  · rename_i hngt
    have hle0 : clickLng - lng ≤ 0 := by
      have : ¬ lng < clickLng := hngt
      linarith [not_lt.mp this]
    have hneg : clickLng - lng < -180 := by
      rcases abs_cases (clickLng - lng) with ⟨he, hge⟩ | ⟨he, _⟩
      · have hz : clickLng - lng = 0 := le_antisymm hle0 hge
        rw [hz] at h
        norm_num at h
      · linarith [he ▸ h]
    have hx : clickLng - (lng + -360) = clickLng - lng + 360 := by ring
    rw [hx]
    by_cases hbig : clickLng - lng + 360 ≤ 0
    · have habs1 : |clickLng - lng + 360| = -(clickLng - lng + 360) := abs_of_nonpos hbig
      have hceil : (⌈|clickLng - lng + 360|⌉ : ℤ) = ⌈|clickLng - lng|⌉ - 360 := by
        have habs2 : |clickLng - lng| = -(clickLng - lng) := abs_of_nonpos (by linarith)
        rw [habs1, habs2]
        have hz : -(clickLng - lng + 360) = -(clickLng - lng) + ((-360 : ℤ) : ℚ) := by
          push_cast
          ring
        rw [hz, Int.ceil_add_int]
        omega
      omega
    · push_neg at hbig
      have habs1 : |clickLng - lng + 360| = clickLng - lng + 360 := abs_of_nonneg (by linarith)
      have hle : ⌈|clickLng - lng + 360|⌉ ≤ (180 : ℤ) := by
        rw [Int.ceil_le, habs1]
        push_cast
        linarith
      omega

/-- Four decimal digits of `r`, most significant first, zero padded
(the decimal representation of `r % 10000` on four positions). -/
def pad4 (r : Nat) : String :=
  ⟨[Nat.digitChar (r / 1000 % 10), Nat.digitChar (r / 100 % 10),
    Nat.digitChar (r / 10 % 10), Nat.digitChar (r % 10)]⟩

/-- JS `q.toFixed(4)` on the rational model: the nearest multiple of
`1/10000` (ties toward the larger numerator, as specified for `toFixed`),
printed with a sign, the integer digits, a dot and exactly four fractional
digits. -/
def toFixed4 (q : ℚ) : String :=
  let n : ℤ := ⌊q * 10000 + 1 / 2⌋
  let a : Nat := n.natAbs
  (if n < 0 then "-" else "") ++ toString (a / 10000) ++ "." ++ pad4 (a % 10000)

/-- The observable content of the popup built by `createPopup`: the IP line,
the coordinates line, the anchor's `href` and `title` attributes and the
anchor's rendered text. -/
structure PopupContent where
  ipText : String
  coordText : String
  href : String
  title : String
  linkText : String
deriving DecidableEq, Repr

/-- `createPopup(coordinates, properties)`: truncates `properties.url` to its
first 50 characters plus an ellipsis when longer than 50, and fills the fixed
HTML template — coordinates rendered as `coordinates[1].toFixed(4), coordinates[0].toFixed(4)`
(latitude first), full URL in `href` and `title`.  `coordinates` is the
`[longitude, latitude]` pair. -/
def createPopup (coordinates : ℚ × ℚ) (ip url : String) : PopupContent :=
  let formattedUrl := if 50 < url.length then (url.toList.take 50).asString ++ "..." else url
  { ipText := ip
  , coordText := toFixed4 coordinates.2 ++ ", " ++ toFixed4 coordinates.1
  , href := url
  , title := url
  , linkText := formattedUrl }

/-- The `unclustered-point` click handler: copies the feature's
`[longitude, latitude]`, wraps the longitude toward the click longitude with
the `while` loop (`wrapLng`), and calls `createPopup` at the adjusted
coordinates.  Returns the adjusted coordinate pair and the popup content. -/
def unclusteredPointClick (clickLng : ℚ) (featureLng featureLat : ℚ) (ip url : String) :
    (ℚ × ℚ) × PopupContent :=
  let adjustedLng := wrapLng clickLng featureLng
  ((adjustedLng, featureLat), createPopup (adjustedLng, featureLat) ip url)

/-! ## Theorems -/

/-- C1: the `clusters` layer's step expressions bucket by point count with
inclusive lower bounds 10 and 30: `n < 10` gives radius 20 and color
`#51bbd6` (light blue), `10 ≤ n < 30` gives radius 30 and color `#f1f075`
(yellow), `30 ≤ n` gives radius 40 and color `#f28cb1` (pink); in
particular `n = 9` gets `{20, #51bbd6}`, `n = 10` gets `{30, #f1f075}` and
`n = 30` gets `{40, #f28cb1}`. -/
theorem cluster_step_bucketing :
    (∀ n : Nat, clusterCircleRadius n = if n < 10 then 20 else if n < 30 then 30 else 40)
    ∧ (∀ n : Nat, clusterCircleColor n
        = if n < 10 then "#51bbd6" else if n < 30 then "#f1f075" else "#f28cb1")
    ∧ (clusterCircleRadius 9 = 20 ∧ clusterCircleColor 9 = "#51bbd6")
    ∧ (clusterCircleRadius 10 = 30 ∧ clusterCircleColor 10 = "#f1f075")
    ∧ (clusterCircleRadius 30 = 40 ∧ clusterCircleColor 30 = "#f28cb1") := by
  refine ⟨?_, ?_, ⟨by decide, by decide⟩, ⟨by decide, by decide⟩, ⟨by decide, by decide⟩⟩
  · intro n
    simp only [clusterCircleRadius, clustersPaint, stepEval]
  · intro n
    simp only [clusterCircleColor, clustersPaint, stepEval]

/-- The wrapping loop shifts the longitude by a whole multiple of 360 and
stops exactly when the distance to the click longitude is at most 180. -/
theorem wrapLng_shift_bound (c f : ℚ) :
    (∃ k : ℤ, wrapLng c f = f + 360 * k) ∧ |c - wrapLng c f| ≤ 180 := by
  refine wrapLng.induct c
    (fun lng => (∃ k : ℤ, wrapLng c lng = lng + 360 * k) ∧ |c - wrapLng c lng| ≤ 180) ?_ ?_ f
  · intro x hgt ih
    rcases ih with ⟨⟨k, hk⟩, hb⟩
    constructor
    · rw [wrapLng, dif_pos hgt]
      by_cases hc : c > x
      · rw [dif_pos hc] at hk
        rw [if_pos hc]
        refine ⟨k + 1, ?_⟩
        rw [hk]
        push_cast
        ring
      · rw [dif_neg hc] at hk
        rw [if_neg hc]
        refine ⟨k - 1, ?_⟩
        rw [hk]
        push_cast
        ring
    · rw [wrapLng, dif_pos hgt]
      exact hb
  · intro x hle
    rw [wrapLng, dif_neg hle]
    exact ⟨⟨0, by push_cast; ring⟩, by linarith [not_lt.mp hle]⟩

/-- C2: the `unclustered-point` click handler leaves the latitude unchanged
and shifts the popup longitude by a whole multiple of 360 degrees until its
distance from the click longitude is at most 180 degrees; in particular a
feature at longitude 179 clicked at longitude -179 yields popup longitude
-181 (a -360 shift), not 179. -/
theorem unclustered_click_antimeridian :
    (∀ (c fLng fLat : ℚ) (ip url : String),
        (unclusteredPointClick c fLng fLat ip url).1.2 = fLat
        ∧ (unclusteredPointClick c fLng fLat ip url).1.1 = wrapLng c fLng)
    ∧ (∀ c f : ℚ, ∃ k : ℤ, wrapLng c f = f + 360 * k)
    ∧ (∀ c f : ℚ, |c - wrapLng c f| ≤ 180)
    ∧ wrapLng (-179) 179 = -181 := by
  refine ⟨fun c fLng fLat ip url => ⟨rfl, rfl⟩,
          fun c f => (wrapLng_shift_bound c f).1,
          fun c f => (wrapLng_shift_bound c f).2, ?_⟩
  rw [wrapLng]
  rw [dif_pos (by rw [show |(-179 : ℚ) - 179| = 358 by rw [abs_of_nonpos] <;> norm_num]; norm_num)]
  rw [if_neg (by norm_num)]
  rw [wrapLng]
  rw [dif_neg (by rw [show |(-179 : ℚ) - (179 + -360)| = 2 by rw [abs_of_nonneg] <;> norm_num]; norm_num)]
  norm_num

@[simp]
theorem updateIPCount_map (c : Nat ⊕ String) (st : AppState) :
    (updateIPCount c st).map = st.map := by
  cases h : st.statusEl <;> cases c <;> simp [updateIPCount, h]

@[simp]
theorem updateIPCount_ipLocationData (c : Nat ⊕ String) (st : AppState) :
    (updateIPCount c st).ipLocationData = st.ipLocationData := by
  cases h : st.statusEl <;> cases c <;> simp [updateIPCount, h]

@[simp]
theorem showErrorMessage_map (msg : String) (st : AppState) :
    (showErrorMessage msg st).map = st.map := by
  cases h : st.statusEl <;> simp [showErrorMessage, h]

@[simp]
theorem showErrorMessage_ipLocationData (msg : String) (st : AppState) :
    (showErrorMessage msg st).ipLocationData = st.ipLocationData := by
  cases h : st.statusEl <;> simp [showErrorMessage, h]

@[simp]
theorem loadErrorUI_map (msg : String) (st : AppState) :
    (loadErrorUI msg st).map = st.map := by
  unfold loadErrorUI
  split_ifs <;> simp

@[simp]
theorem loadErrorUI_ipLocationData (msg : String) (st : AppState) :
    (loadErrorUI msg st).ipLocationData = st.ipLocationData := by
  unfold loadErrorUI
  split_ifs <;> simp

@[simp]
theorem addGeoJSONToMap_ipLocationData (st : AppState) :
    (addGeoJSONToMap st).ipLocationData = st.ipLocationData := by
  unfold addGeoJSONToMap
  cases h : st.map <;> simp only []
  · simp
  · split_ifs <;> simp

/-- A previously loaded state used to exhibit the premature overwrite of
`ipLocationData`. -/
def c3Feature : Feature := ⟨"1.2.3.4", "https://example.com/", 10, 20⟩

/-- Concrete app state holding one successfully loaded feature. -/
def c3PrevState : AppState :=
  ⟨none, .withFeatures [c3Feature], some ⟨"📊 1 unique IP locations loaded", "#27ae60"⟩⟩

/-- C3 counterexample: a 200 response whose body parses but lacks a
`features` array makes `loadGeoJSONData` report a validation error AND
overwrite the previously stored collection — the script assigns
`ipLocationData = JSON.parse(responseText)` before validating, so the
claim that the stored state is unchanged on a failed validation is false. -/
theorem load_overwrites_state_counterexample :
    (loadGeoJSONData (.response 200 "OK" (.parsed .withoutFeatures)) c3PrevState).ipLocationData
      ≠ c3PrevState.ipLocationData
    ∧ (loadGeoJSONData (.response 200 "OK" (.parsed .withoutFeatures)) c3PrevState).statusEl
      = some ⟨"❌ Error: Failed to load IP location data: Invalid GeoJSON structure - missing features array", "#e74c3c"⟩ := by
  constructor
  · decide
  · rfl

/-- C3 (amended): `loadGeoJSONData` leaves the stored Feature Collection
unchanged on a network failure, a non-2xx response or a JSON parse failure,
but overwrites it with the parsed value as soon as parsing succeeds on a
2xx response — even when the subsequent `features` validation then fails
and reports an error. -/
theorem load_state_update_amended :
    ∀ (st : AppState) (status : Nat) (stx msg : String) (v : GeoJSONValue),
      (loadGeoJSONData .networkFailure st).ipLocationData = st.ipLocationData
      ∧ (loadGeoJSONData (.response status stx (.parseFail msg)) st).ipLocationData
          = st.ipLocationData
      ∧ (loadGeoJSONData (.response status stx (.parsed v)) st).ipLocationData
          = (if respOk status then v else st.ipLocationData) := by
  intro st status stx msg v
  refine ⟨by simp [loadGeoJSONData], ?_, ?_⟩
  · by_cases hok : respOk status <;> simp [loadGeoJSONData, hok]
  · by_cases hok : respOk status
    · cases v with
      | nullish => simp [loadGeoJSONData, hok]
      | withoutFeatures => simp [loadGeoJSONData, hok]
      | withFeatures fs =>
        simp only [loadGeoJSONData, hok, if_true]
        split <;> simp
    · simp [loadGeoJSONData, hok]

theorem addGeoJSONToMap_map_of_none (st : AppState) (h : st.map = none) :
    (addGeoJSONToMap st).map = none := by
  simp only [addGeoJSONToMap, h]
  simp [h]

theorem addGeoJSONToMap_map_of_present (st : AppState) (m : MapState) (h : st.map = some m)
    (hsrc : (m.sources.map Prod.fst).contains "ip-locations" = true) :
    (addGeoJSONToMap st).map = st.map := by
  simp only [addGeoJSONToMap, h]
  rw [if_pos hsrc]
  simp [h]

theorem addGeoJSONToMap_present (st : AppState) (m : MapState) (h : st.map = some m) :
    ∃ m', (addGeoJSONToMap st).map = some m'
      ∧ (m'.sources.map Prod.fst).contains "ip-locations" = true := by
  simp only [addGeoJSONToMap, h]
  by_cases hsrc : (m.sources.map Prod.fst).contains "ip-locations"
  · rw [if_pos hsrc]
    exact ⟨m, by simp [h], hsrc⟩
  · rw [if_neg hsrc]
    split_ifs with h1 h2 h3
    · simp only [showErrorMessage_map]
      exact ⟨_, rfl, by simp⟩
    · simp only [showErrorMessage_map]
      exact ⟨_, rfl, by simp⟩
    · simp only [showErrorMessage_map]
      exact ⟨_, rfl, by simp⟩
    · exact ⟨_, rfl, by simp⟩

/-- C4: rendering is idempotent on the map — a second `addGeoJSONToMap`
call with unchanged map state never duplicates the `ip-locations` source or
the three layers (the duplicate-source throw is caught, leaving sources and
layers exactly as after the first call), and after a basemap swap
(`setStyle` discarding the previous sources/layers) it is safely callable
again, producing exactly the `clusters`, `cluster-count`,
`unclustered-point` layer set. -/
theorem render_idempotent :
    (∀ st : AppState, (addGeoJSONToMap (addGeoJSONToMap st)).map = (addGeoJSONToMap st).map)
    ∧ (∀ (st : AppState) (sty : MapStyle) (cam : Camera),
        ((addGeoJSONToMap { st with map := st.map.map (setStyle sty cam) }).map).map MapState.layers
          = st.map.map (fun _ => ["clusters", "cluster-count", "unclustered-point"])) := by
  constructor
  · intro st
    cases h : st.map with
    | none =>
      have h1 := addGeoJSONToMap_map_of_none st h
      rw [addGeoJSONToMap_map_of_none _ h1, h1]
    | some m =>
      obtain ⟨m', h1, hsrc⟩ := addGeoJSONToMap_present st m h
      exact addGeoJSONToMap_map_of_present _ m' h1 hsrc
  · intro st sty cam
    cases h : st.map with
    | none =>
      rw [addGeoJSONToMap_map_of_none _ rfl]
      rfl
    | some m =>
      rfl

/-- A sample feature for concrete witnesses. -/
def sampleFeature : Feature := ⟨"8.8.8.8", "https://dns.google/", -122, 37⟩

/-- A sample constructed map for concrete witnesses. -/
def sampleMap : MapState := ⟨defaultMapConfig, streetsStyle, [], [], false⟩

/-- C5: for a known style key, `changeMapStyle` captures the camera before
`setStyle` and after the `styledata` handler runs the restored camera equals
the captured one exactly (whatever camera the new style imposed in between),
and the Layer Renderer is re-invoked (the three layers exist again) iff
`ipLocationData` was truthy, i.e. iff a Feature Collection was already
loaded. -/
theorem style_switch_preserves_camera :
    ∀ (st : AppState) (m : MapState) (key : String) (sty : MapStyle) (styleCamera : Camera),
      st.map = some m → mapStyles key = some sty →
      ((changeMapStyle key styleCamera st).map.map MapState.camera = some m.camera)
      ∧ ((changeMapStyle key styleCamera st).map.map MapState.layers
          = some (if st.ipLocationData.truthy then ["clusters", "cluster-count", "unclustered-point"]
                  else [])) := by
  intro st m key sty cam hm hk
  simp only [changeMapStyle, hm, hk]
  by_cases ht : st.ipLocationData.truthy
  · simp only [ht, if_true]
    constructor <;> rfl
  · simp only [ht]
    constructor <;> rfl

/-- Witness for C5: switching a loaded state to the `dark` style, with the
new style imposing a different camera, restores the original camera and
re-renders the three layers. -/
theorem style_switch_preserves_camera_witness :
    ((changeMapStyle "dark" ⟨1, 2, 5, 10, 45⟩
        ⟨some sampleMap, .withFeatures [sampleFeature], some ⟨"", ""⟩⟩).map.map MapState.camera
      = some defaultMapConfig)
    ∧ ((changeMapStyle "dark" ⟨1, 2, 5, 10, 45⟩
        ⟨some sampleMap, .withFeatures [sampleFeature], some ⟨"", ""⟩⟩).map.map MapState.layers
      = some ["clusters", "cluster-count", "unclustered-point"]) := by
  have h := style_switch_preserves_camera
    ⟨some sampleMap, .withFeatures [sampleFeature], some ⟨"", ""⟩⟩
    sampleMap "dark" darkStyle ⟨1, 2, 5, 10, 45⟩ rfl rfl
  exact ⟨h.1, h.2⟩

/-- C8: for a key absent from `mapStyles` the guard
`if (map && mapStyles[styleKey])` fails, so `changeMapStyle` is a complete
no-op: no style change, no camera change, no status or error message. -/
theorem unknown_style_noop :
    ∀ (st : AppState) (key : String) (cam : Camera),
      mapStyles key = none → changeMapStyle key cam st = st := by
  intro st key cam hk
  cases h : st.map <;> simp [changeMapStyle, hk, h]

/-- Witness for C8: the key `terrain` is not in the registry and switching
to it leaves a loaded state exactly unchanged. -/
theorem unknown_style_noop_witness :
    mapStyles "terrain" = none
    ∧ changeMapStyle "terrain" defaultMapConfig
        ⟨some sampleMap, .withFeatures [sampleFeature], some ⟨"", ""⟩⟩
      = ⟨some sampleMap, .withFeatures [sampleFeature], some ⟨"", ""⟩⟩ :=
  ⟨rfl, unknown_style_noop ⟨some sampleMap, .withFeatures [sampleFeature], some ⟨"", ""⟩⟩
    "terrain" defaultMapConfig rfl⟩

/-- C10: with the global `map` handle unset, `changeMapStyle`,
`resetMapView` and the zoom-in/zoom-out button handlers all return without
touching any state and without showing any message. -/
theorem uninitialized_map_noop :
    ∀ (st : AppState) (key : String) (cam : Camera),
      st.map = none →
      changeMapStyle key cam st = st ∧ resetMapView st = st
      ∧ zoomInClick st = st ∧ zoomOutClick st = st := by
  intro st key cam h
  refine ⟨?_, ?_, ?_, ?_⟩
  · cases hk : mapStyles key <;> simp [changeMapStyle, h, hk]
  · simp [resetMapView, h]
  · simp [zoomInClick, h]
  · simp [zoomOutClick, h]

/-- Witness for C10: a state with no map is left exactly unchanged by all
four handlers. -/
theorem uninitialized_map_noop_witness :
    changeMapStyle "dark" defaultMapConfig ⟨none, .nullish, some ⟨"", ""⟩⟩
      = ⟨none, .nullish, some ⟨"", ""⟩⟩
    ∧ resetMapView ⟨none, .nullish, some ⟨"", ""⟩⟩ = ⟨none, .nullish, some ⟨"", ""⟩⟩
    ∧ zoomInClick ⟨none, .nullish, some ⟨"", ""⟩⟩ = ⟨none, .nullish, some ⟨"", ""⟩⟩
    ∧ zoomOutClick ⟨none, .nullish, some ⟨"", ""⟩⟩ = ⟨none, .nullish, some ⟨"", ""⟩⟩ :=
  uninitialized_map_noop ⟨none, .nullish, some ⟨"", ""⟩⟩ "dark" defaultMapConfig rfl

/-- C6: the popup renders the full `url` in the anchor's `href` and `title`;
the anchor text is the url itself when its length is at most 50 and its
50-character prefix followed by an ellipsis when longer; the coordinate line
is latitude then longitude, each printed by `toFixed(4)`, whose output
always carries exactly four digits after the decimal point. -/
theorem popup_content_format :
    ∀ (lng lat : ℚ) (ip url : String),
      (50 < url.length →
        (createPopup (lng, lat) ip url).linkText = (url.toList.take 50).asString ++ "..."
        ∧ ((url.toList.take 50).asString).length = 50)
      ∧ (url.length ≤ 50 → (createPopup (lng, lat) ip url).linkText = url)
      ∧ (createPopup (lng, lat) ip url).href = url
      ∧ (createPopup (lng, lat) ip url).title = url
      ∧ (createPopup (lng, lat) ip url).coordText = toFixed4 lat ++ ", " ++ toFixed4 lng
      ∧ (∀ q : ℚ, ∃ intPart : String,
          toFixed4 q = intPart ++ "." ++ pad4 ((⌊q * 10000 + 1 / 2⌋).natAbs % 10000)
          ∧ (pad4 ((⌊q * 10000 + 1 / 2⌋).natAbs % 10000)).length = 4) := by
  intro lng lat ip url
  refine ⟨?_, ?_, rfl, rfl, rfl, ?_⟩
  · intro h
    constructor
    · simp [createPopup, h]
    · show (url.toList.take 50).length = 50
      rw [List.length_take]
      have hl : url.toList.length = url.length := rfl
      omega
  · intro h
    simp [createPopup, Nat.not_lt.mpr h]
  · intro q
    refine ⟨(if (⌊q * 10000 + 1 / 2⌋ : ℤ) < 0 then "-" else "")
        ++ toString ((⌊q * 10000 + 1 / 2⌋ : ℤ).natAbs / 10000), ?_, rfl⟩
    simp [toFixed4, String.append_assoc]

/-- A 60-character URL for the truncation witness. -/
def longUrl : String := "https://example.com/" ++ "0123456789012345678901234567890123456789"

/-- Witness for C6: the 60-character `longUrl` is rendered as its
50-character prefix plus an ellipsis, while an 18-character URL is rendered
unmodified. -/
theorem popup_content_format_witness :
    (createPopup (-122, 37) "8.8.8.8" longUrl).linkText = (longUrl.toList.take 50).asString ++ "..."
    ∧ ((longUrl.toList.take 50).asString).length = 50
    ∧ (createPopup (-122, 37) "8.8.8.8" "https://a.example/").linkText = "https://a.example/" := by
  have h1 := popup_content_format (-122) 37 "8.8.8.8" longUrl
  have h2 := popup_content_format (-122) 37 "8.8.8.8" "https://a.example/"
  exact ⟨(h1.1 (by decide)).1, (h1.1 (by decide)).2, h2.2.1 (by decide)⟩

/-- C9: when the status element exists, `updateIPCount` with a number sets
a green count string containing the number, `updateIPCount` with a string
sets that exact string in blue, and `showErrorMessage` sets a red message
containing the given text — each independently of whatever text was
previously displayed. -/
theorem status_ui_updates :
    ∀ (st : AppState) (el : StatusEl) (n : Nat) (s msg : String),
      st.statusEl = some el →
      ((updateIPCount (.inl n) st).statusEl
          = some ⟨"📊 " ++ toString n ++ " unique IP locations loaded", "#27ae60"⟩
        ∧ ∃ a b : String, "📊 " ++ toString n ++ " unique IP locations loaded"
            = a ++ toString n ++ b)
      ∧ (updateIPCount (.inr s) st).statusEl = some ⟨s, "#3498db"⟩
      ∧ ((showErrorMessage msg st).statusEl = some ⟨"❌ Error: " ++ msg, "#e74c3c"⟩
        ∧ ∃ a b : String, "❌ Error: " ++ msg = a ++ msg ++ b) := by
  intro st el n s msg h
  refine ⟨⟨?_, ⟨"📊 ", " unique IP locations loaded", rfl⟩⟩, ?_, ?_, ⟨"❌ Error: ", "", ?_⟩⟩
  · simp [updateIPCount, h]
  · simp [updateIPCount, h]
  · simp [showErrorMessage, h]
  · simp

/-- Witness for C9: concrete status updates on a state with a (previously
filled) status element. -/
theorem status_ui_updates_witness :
    (updateIPCount (.inl 3) ⟨none, .nullish, some ⟨"", ""⟩⟩).statusEl
      = some ⟨"📊 3 unique IP locations loaded", "#27ae60"⟩
    ∧ (updateIPCount (.inr "Loading IP locations...") ⟨none, .nullish, some ⟨"", ""⟩⟩).statusEl
      = some ⟨"Loading IP locations...", "#3498db"⟩
    ∧ (showErrorMessage "boom" ⟨none, .nullish, some ⟨"", ""⟩⟩).statusEl
      = some ⟨"❌ Error: boom", "#e74c3c"⟩ := by
  have h := status_ui_updates ⟨none, .nullish, some ⟨"", ""⟩⟩ ⟨"", ""⟩ 3
    "Loading IP locations..." "boom" rfl
  exact ⟨h.1.1, h.2.1, h.2.2.1⟩

theorem leadsWith_append (n b : List Char) : leadsWith n (n ++ b) = true := by
  induction n with
  | nil => rfl
  | cons a as ih => simp [leadsWith, ih]

theorem hasSubList_nil (l : List Char) : hasSubList [] l = true := by
  cases l <;> simp [hasSubList, leadsWith]

theorem hasSubList_append_self (n b : List Char) : hasSubList n (n ++ b) = true := by
  cases n with
  | nil => simpa using hasSubList_nil b
  | cons a as =>
    simp only [hasSubList, Bool.or_eq_true]
    left
    show leadsWith (a :: as) ((a :: as) ++ b) = true
    exact leadsWith_append _ _

theorem hasSubList_mid (a n b : List Char) : hasSubList n (a ++ (n ++ b)) = true := by
  induction a with
  | nil => simpa using hasSubList_append_self n b
  | cons c cs ih => simp [hasSubList, ih]

theorem strIncludes_of_mid (x n y : String) : strIncludes (x ++ n ++ y) n = true := by
  unfold strIncludes
  have h : (x ++ n ++ y).toList = x.toList ++ (n.toList ++ y.toList) := by
    simp [String.toList, String.data_append, List.append_assoc]
  rw [h]
  exact hasSubList_mid _ _ _

/-- Concrete state (no map, empty status element) used to exhibit the
status-message routing of `loadGeoJSONData`. -/
def c7State : AppState := ⟨none, .nullish, some ⟨"", ""⟩⟩

/-- C7 counterexample: the `catch` dispatches on `error.message.includes('404')`
before anything else, so a non-2xx response with status 500 whose status text
happens to contain "404" is reported with the not-found/path-check message,
which does not include the status code 500 — refuting the claim that every
non-2xx response other than HTTP 404 yields a message including its status
code. -/
theorem http_status_message_counterexample :
    respOk 500 = false
    ∧ (loadGeoJSONData (.response 500 "see 404 docs" (.parseFail "x")) c7State).statusEl
      = some ⟨"❌ Error: GeoJSON file not found. Please check the file path.", "#e74c3c"⟩
    ∧ strIncludes "❌ Error: GeoJSON file not found. Please check the file path." "500" = false := by
  refine ⟨rfl, rfl, by decide⟩

/-- C7 (amended): the load failure messages are as claimed except that the
404 dispatch is by substring match on the composed error text — a non-2xx
response yields an HTTP-error message including the status code provided
that text does not contain "404" (or "Failed to fetch"); HTTP 404 itself
always yields the not-found/path-check message; a network failure yields
the connectivity message; a missing `features` array and an empty
`features` array yield distinct messages. -/
theorem load_error_messages_amended :
    ∀ (st : AppState) (el : StatusEl) (status : Nat) (stx : String) (body : ParseOutcome),
      st.statusEl = some el →
      ((loadGeoJSONData .networkFailure st).statusEl
          = some ⟨"❌ Error: Network error. Please ensure you are running this from a web server.", "#e74c3c"⟩)
      ∧ (respOk status = false →
          strIncludes ("HTTP error! status: " ++ toString status ++ " - " ++ stx) "404" = false →
          strIncludes ("HTTP error! status: " ++ toString status ++ " - " ++ stx) "Failed to fetch" = false →
          ∃ x y : String,
            (loadGeoJSONData (.response status stx body) st).statusEl
              = some ⟨x ++ toString status ++ y, "#e74c3c"⟩)
      ∧ ((loadGeoJSONData (.response 404 stx body) st).statusEl
          = some ⟨"❌ Error: GeoJSON file not found. Please check the file path.", "#e74c3c"⟩)
      ∧ (respOk status = true →
          ((loadGeoJSONData (.response status stx (.parsed .withoutFeatures)) st).statusEl
              = some ⟨"❌ Error: Failed to load IP location data: Invalid GeoJSON structure - missing features array", "#e74c3c"⟩)
          ∧ ((loadGeoJSONData (.response status stx (.parsed (.withFeatures []))) st).statusEl
              = some ⟨"❌ Error: Failed to load IP location data: GeoJSON file contains no features", "#e74c3c"⟩))
      ∧ ("Failed to load IP location data: Invalid GeoJSON structure - missing features array"
          ≠ "Failed to load IP location data: GeoJSON file contains no features") := by
  intro st el status stx body h
  have d1 : strIncludes "Failed to fetch" "404" = false := by decide
  have d2 : strIncludes "Failed to fetch" "Failed to fetch" = true := by decide
  have d3 : strIncludes "Invalid GeoJSON structure - missing features array" "404" = false := by decide
  have d4 : strIncludes "Invalid GeoJSON structure - missing features array" "Failed to fetch" = false := by decide
  have d5 : strIncludes "GeoJSON file contains no features" "404" = false := by decide
  have d6 : strIncludes "GeoJSON file contains no features" "Failed to fetch" = false := by decide
  refine ⟨?_, ?_, ?_, ?_, by decide⟩
  · simp [loadGeoJSONData, loadErrorUI, d1, d2, showErrorMessage, updateIPCount, h]
  · intro hok hn4 hff
    simp only [String.append_assoc] at hn4 hff
    refine ⟨"❌ Error: " ++ ("Failed to load IP location data: " ++ "HTTP error! status: "),
            " - " ++ stx, ?_⟩
    simp [loadGeoJSONData, hok, loadErrorUI, hn4, hff, showErrorMessage, updateIPCount, h,
          String.append_assoc]
    rfl
  · have hok : respOk 404 = false := rfl
    have hm : strIncludes ("HTTP error! status: " ++ toString (404 : Nat) ++ " - " ++ stx) "404" = true := by
      have ht : toString (404 : Nat) = "404" := rfl
      rw [ht, String.append_assoc]
      exact strIncludes_of_mid "HTTP error! status: " "404" (" - " ++ stx)
    simp [loadGeoJSONData, hok, loadErrorUI, hm, showErrorMessage, updateIPCount, h]
  · intro hok
    constructor
    · simp [loadGeoJSONData, hok, loadErrorUI, d3, d4, showErrorMessage, updateIPCount, h]
    · simp [loadGeoJSONData, hok, loadErrorUI, d5, d6, showErrorMessage, updateIPCount, h]

/-- Witness for C7 (amended): the five scenarios evaluated at concrete
inputs — network failure, HTTP 500 with the standard status text, HTTP 404,
a parsed body without `features`, and a parsed body with an empty
`features` array. -/
theorem load_error_messages_witness :
    ((loadGeoJSONData .networkFailure ⟨none, .nullish, some ⟨"", ""⟩⟩).statusEl
      = some ⟨"❌ Error: Network error. Please ensure you are running this from a web server.", "#e74c3c"⟩)
    ∧ (∃ x y : String,
        (loadGeoJSONData (.response 500 "Internal Server Error" (.parseFail "bad token"))
            ⟨none, .nullish, some ⟨"", ""⟩⟩).statusEl
          = some ⟨x ++ toString (500 : Nat) ++ y, "#e74c3c"⟩)
    ∧ ((loadGeoJSONData (.response 404 "Not Found" (.parseFail "bad token"))
            ⟨none, .nullish, some ⟨"", ""⟩⟩).statusEl
        = some ⟨"❌ Error: GeoJSON file not found. Please check the file path.", "#e74c3c"⟩)
    ∧ ((loadGeoJSONData (.response 200 "OK" (.parsed .withoutFeatures))
            ⟨none, .nullish, some ⟨"", ""⟩⟩).statusEl
        = some ⟨"❌ Error: Failed to load IP location data: Invalid GeoJSON structure - missing features array", "#e74c3c"⟩)
    ∧ ((loadGeoJSONData (.response 200 "OK" (.parsed (.withFeatures [])))
            ⟨none, .nullish, some ⟨"", ""⟩⟩).statusEl
        = some ⟨"❌ Error: Failed to load IP location data: GeoJSON file contains no features", "#e74c3c"⟩) := by
  have h1 := load_error_messages_amended ⟨none, .nullish, some ⟨"", ""⟩⟩ ⟨"", ""⟩ 500
    "Internal Server Error" (.parseFail "bad token") rfl
  have h2 := load_error_messages_amended ⟨none, .nullish, some ⟨"", ""⟩⟩ ⟨"", ""⟩ 404
    "Not Found" (.parseFail "bad token") rfl
  have h3 := load_error_messages_amended ⟨none, .nullish, some ⟨"", ""⟩⟩ ⟨"", ""⟩ 200
    "OK" (.parseFail "bad token") rfl
  exact ⟨h1.1, h1.2.1 (by decide) (by decide) (by decide), h2.2.2.1,
         (h3.2.2.2.1 (by decide)).1, (h3.2.2.2.1 (by decide)).2⟩

end MapJS
